import Mathlib

/-!
Verification of the Carebot command-and-control core against its
natural-language specification.  The definitions below are shallow
embeddings of the Python sources:

* `commands/arm_actions/actions.py`  (manual joint writer),
* `commands/arm_actions/action_hug.py`, `action_heart.py`,
  `action_init_pose.py`  (gesture sequencer),
* `commands/face_tracking/controller.py`  (visual servo tracker),
* `app.py` / `app_mqtt.py`  (command router, preemption, telemetry,
  action runner).

Machine integers are modelled as `ℤ`; real time is modelled as a
millisecond counter; fallible device calls are modelled by explicit
oracles; emitted events and device operations are collected in traces.
-/

namespace Carebot

/-- Clamping used throughout the code: `max(0, min(180, v))`. -/
def clamp180 (v : ℤ) : ℤ := max 0 (min 180 v)

/-- From `action_hug.py` / `action_heart.py` (`mirror_for_right`):
copy the pose, then reflect index 0 (base) and index 4 (wrist yaw) as
`180 - v` clamped to `[0,180]`; the two assignments sit in a
`try/except: pass`, so a pose shorter than 5 entries keeps whatever
assignments succeeded before the `IndexError`. -/
def mirror_for_right (p : List ℤ) : List ℤ :=
  if 5 ≤ p.length then
    (p.set 0 (clamp180 (180 - p.getD 0 0))).set 4 (clamp180 (180 - p.getD 4 0))
  else if 1 ≤ p.length then
    p.set 0 (clamp180 (180 - p.getD 0 0))
  else p

/-- A physical device operation on the serial servo bus
(`Arm_serial_servo_read`, `Arm_serial_servo_write`,
`Arm_serial_servo_write6_array`). -/
inductive DeviceOp
  | read_joint (sid : ℤ)
  | write_joint (sid angle time_ms : ℤ)
  | write6 (angles : List ℤ) (time_ms : ℤ)
  deriving DecidableEq, Repr

/-- `ArmActions.set_joint` (`actions.py`): clamp the angle to `[0,180]`
and the duration to `≥ 0`, write the single joint under the arbiter.
`write_fails` models the device call raising; the commanded (clamped)
angle is the same either way and the exception text is abstracted to
`"error:exception"`. -/
def set_joint (sid angle time_ms : ℤ) (write_fails : Bool) :
    String × List DeviceOp :=
  let a := clamp180 angle
  let t := max 0 time_ms
  if write_fails then ("error:exception", [DeviceOp.write_joint sid a t])
  else ("ok", [DeviceOp.write_joint sid a t])

/-- A JSON parameter value as the handlers see it: an integer-like
value, an absent/null value, or a value on which Python `int(·)`
raises. -/
inductive JVal
  | vint (n : ℤ)
  | vnone
  | vbad
  deriving DecidableEq, Repr

/-- Python `int(x)` for a `JVal`: `none` when it raises. -/
def toInt : JVal → Option ℤ
  | .vint n => some n
  | .vnone => none
  | .vbad => none

/-- `int(a)` over a whole angle vector, `none` if any element raises. -/
def toInts : List JVal → Option (List ℤ)
  | [] => some []
  | v :: rest =>
    match toInt v, toInts rest with
    | some n, some ns => some (n :: ns)
    | _, _ => none

/-- `ArmActions.set_joints` (`actions.py`): reject anything that is not
a 6-element vector with `"error:invalid_angles"` before touching the
device, otherwise clamp each entry and issue one `write6`.  `none`
models a payload that is not a list/tuple at all. -/
def set_joints (angles : Option (List JVal)) (time_ms : ℤ)
    (write_fails : Bool) : String × List DeviceOp :=
  match angles with
  | none => ("error:invalid_angles", [])
  | some l =>
    if l.length ≠ 6 then ("error:invalid_angles", [])
    else
      match toInts l with
      | none => ("error:exception", [])
      | some zs =>
        let arr := zs.map clamp180
        let t := max 0 time_ms
        if write_fails then ("error:exception", [DeviceOp.write6 arr t])
        else ("ok", [DeviceOp.write6 arr t])

/-- Outcome of `Arm_serial_servo_read` inside `nudge_joint`: the call
raises, returns `None`, returns a non-numeric value, or yields an
angle. -/
inductive ReadResult
  | raises
  | absent
  | non_numeric
  | value (v : ℤ)
  deriving DecidableEq, Repr

/-- `ArmActions.nudge_joint` (`actions.py`): read the current angle
under the arbiter; on any unreadable outcome return
`"error:read_failed"` without writing; otherwise write
`clamp(current + delta, 0, 180)`. -/
def nudge_joint (sid delta time_ms : ℤ) (read : ReadResult)
    (write_fails : Bool) : String × List DeviceOp :=
  match read with
  | .raises => ("error:read_failed", [DeviceOp.read_joint sid])
  | .absent => ("error:read_failed", [DeviceOp.read_joint sid])
  | .non_numeric => ("error:read_failed", [DeviceOp.read_joint sid])
  | .value v =>
    let target := clamp180 (v + delta)
    let t := max 0 time_ms
    if write_fails then
      ("error:exception",
        [DeviceOp.read_joint sid, DeviceOp.write_joint sid target t])
    else
      ("ok", [DeviceOp.read_joint sid, DeviceOp.write_joint sid target t])

/-- `CarebotApp._cmd_set_joint` (`app.py`): validate `id ∈ [1,6]`
(`invalid_sid`), require `angle` present (`missing_angle`), then call
`ArmActions.set_joint`.  A present but non-integer angle raises inside
`set_joint` and is abstracted to `"error:exception"` with no write. -/
def cmd_set_joint (sid angle : JVal) (time_ms : ℤ) (write_fails : Bool) :
    String × List DeviceOp :=
  match toInt sid with
  | none => ("invalid_sid", [])
  | some n =>
    if n < 1 ∨ 6 < n then ("invalid_sid", [])
    else
      match angle with
      | .vnone => ("missing_angle", [])
      | .vbad => ("error:exception", [])
      | .vint a => set_joint n a time_ms write_fails

/-- `CarebotApp._cmd_set_joints` (`app.py`): no app-level validation,
the length check lives in `ArmActions.set_joints`. -/
def cmd_set_joints (angles : Option (List JVal)) (time_ms : ℤ)
    (write_fails : Bool) : String × List DeviceOp :=
  set_joints angles time_ms write_fails

/-- `CarebotApp._cmd_nudge_joint` (`app.py`): validate `id ∈ [1,6]`
(`invalid_sid`) and that `delta` converts to an integer
(`invalid_delta`) before calling `ArmActions.nudge_joint`. -/
def cmd_nudge_joint (sid delta : JVal) (time_ms : ℤ) (read : ReadResult)
    (write_fails : Bool) : String × List DeviceOp :=
  match toInt sid with
  | none => ("invalid_sid", [])
  | some n =>
    if n < 1 ∨ 6 < n then ("invalid_sid", [])
    else
      match toInt delta with
      | none => ("invalid_delta", [])
      | some d => nudge_joint n d time_ms read write_fails

/-- The command handlers of `CarebotApp._on_message`. -/
inductive Handler
  | start_tracking
  | stop_tracking
  | make_heart
  | hug
  | init_pose
  | set_joint
  | set_joints
  | nudge_joint
  deriving DecidableEq, Repr

/-- The dispatch table of `CarebotApp._on_message` (`app.py` 164-195,
identical in `app_mqtt.py`): exact string matching on the stripped
command, no case folding. -/
def route_name (c : String) : Option Handler :=
  if c = "face_tracking" ∨ c = "face_tracking_mode" ∨ c = "face_tracking_모드" then
    some .start_tracking
  else if c = "stop_face_tracking" ∨ c = "stop_face_tracking_mode" then
    some .stop_tracking
  else if c = "make_heart" then some .make_heart
  else if c = "hug" ∨ c = "make_hug" then some .hug
  else if c = "init_pose" ∨ c = "init" ∨ c = "ready_pose" then some .init_pose
  else if c = "set_joint" then some .set_joint
  else if c = "set_joints" then some .set_joints
  else if c = "nudge_joint" then some .nudge_joint
  else none

/-- Python `str.strip()`: drop whitespace from both ends (defined over
the character list so that it evaluates by kernel reduction). -/
def py_strip (s : String) : String :=
  ⟨((s.data.dropWhile Char.isWhitespace).reverse.dropWhile
      Char.isWhitespace).reverse⟩

/-- Python `str.lower()` (ASCII case folding). -/
def py_lower (s : String) : String :=
  ⟨s.data.map Char.toLower⟩

/-- Lifecycle events observable at the router boundary. -/
inductive Ev
  | ack (cmd : String)
  | preempt
  | dispatch (h : Handler)
  | error (tag : String)
  deriving DecidableEq, Repr

/-- `CarebotApp._on_message` for a command-typed message (`app.py`
148-203): strip the name, fail `missing_command` on empty, otherwise
ack `accepted`, preempt, and either dispatch exactly one handler or
fail `unknown_command`. -/
def on_message (command : String) : List Ev :=
  let cmd := py_strip command
  if cmd = "" then [Ev.error "missing_command"]
  else
    Ev.ack cmd :: Ev.preempt ::
      (match route_name cmd with
       | some h => [Ev.dispatch h]
       | none => [Ev.error "unknown_command"])

/-- Modelled from the spec: the claimed normalization of the command
router, which lowercases the trimmed name before resolving synonyms
("trims whitespace and lowercasing").  Used only to compare the claim
against the code's `route_name`/`on_message`. -/
def route_name_claimed (command : String) : Option Handler :=
  route_name (py_lower (py_strip command))

/-! ### Visual servo tracker (`commands/face_tracking/controller.py`) -/

/-- The tracker's thread slot: `none` when `self._thread is None`,
`some alive` when a thread object exists (`alive` mirrors
`is_alive()`). -/
structure Tracker where
  thread : Option Bool
  deriving DecidableEq, Repr

/-- `FaceTrackingController.is_running`:
`self._thread is not None and self._thread.is_alive()`. -/
def tracker_is_running (t : Tracker) : Bool := t.thread == some true

/-- `FaceTrackingController.start`: return `false` without touching the
loop when a live thread exists, otherwise clear the stop event and
launch a fresh loop thread.  The extra `Bool` records whether a new
loop thread was spawned. -/
def tracker_start (t : Tracker) : Bool × Tracker × Bool :=
  if tracker_is_running t then (false, t, false)
  else (true, ⟨some true⟩, true)

/-- `FaceTrackingController.stop`: `false` when no thread object
exists; otherwise set the stop event, join, clear the slot, `true`. -/
def tracker_stop (t : Tracker) : Bool × Tracker :=
  match t.thread with
  | none => (false, t)
  | some _ => (true, ⟨none⟩)

/-- `CarebotApp._cmd_start_face_tracking` (`app.py` 254-266): result
status is `"running"` when `start()` returned true **or** the tracker
is running afterwards, else `"already_running"`. -/
def cmd_start_face_tracking (t : Tracker) : String × Tracker :=
  let r := tracker_start t
  (if r.1 || tracker_is_running r.2.1 then "running" else "already_running",
   r.2.1)

/-- `CarebotApp._cmd_stop_face_tracking` (`app.py` 286-294): status
`"stopped"` when `stop()` returned true, else `"not_running"`. -/
def cmd_stop_face_tracking (t : Tracker) : String × Tracker :=
  let r := tracker_stop t
  (if r.1 then "stopped" else "not_running", r.2)

/-- Pan clamping of `FaceTrackingController._run` (`controller.py`
151-154): `target_servox` is forced into `[0,180]`. -/
def clamp_servo_x (v : ℤ) : ℤ :=
  if 180 < v then 180 else if v < 0 then 0 else v

/-- Tilt clamping of `FaceTrackingController._run` (`controller.py`
169-172): `target_servoy` is forced into `[0,360]` (it is halved
before being written). -/
def clamp_servo_y (v : ℤ) : ℤ :=
  if 360 < v then 360 else if v < 0 then 0 else v

/-- One detection tick of the tracker state (`controller.py` 140-172):
each axis either keeps its target (deadzone / directional dead-ending /
no update) or replaces it with the clamped PID-derived raw value, which
may be any integer. -/
def tracker_tick (sx sy : ℤ) (pid_x pid_y : Option ℤ) : ℤ × ℤ :=
  ((match pid_x with | none => sx | some v => clamp_servo_x v),
   (match pid_y with | none => sy | some v => clamp_servo_y v))

/-- The commanded 6-axis pose (`controller.py` 174-181):
`[servox, 135, servoy/2, servoy/2, 90, 30]` with float halving,
modelled over `ℚ`. -/
def tracker_joints (sx sy : ℤ) : List ℚ :=
  [(sx : ℚ), 135, (sy : ℚ) / 2, (sy : ℚ) / 2, 90, 30]

/-! ### Telemetry sampler (`app_mqtt.py` `_start_joint_stream`,
`app.py` `_start_joint_stream`) -/

/-- Per-axis change test of `app_mqtt.py` 675-685: a `None` on exactly
one side counts as changed, two known values count as changed when
`abs(a_new - a_old) >= 1`. -/
def axis_changed : Option ℤ → Option ℤ → Bool
  | none, none => false
  | some _, none => true
  | none, some _ => true
  | some a, some b => 1 ≤ |a - b|

/-- Whether any of the six axes changed relative to the last emitted
sample. -/
def telemetry_changed (angles last : List (Option ℤ)) : Bool :=
  (angles.zip last).any fun p => axis_changed p.1 p.2

/-- Emission decision of `app_mqtt.py` 670-688: emit on the first
successful sample, on a per-axis change of at least one degree, or when
the force interval has elapsed since the last emission. -/
def should_send (first_sent : Bool) (angles last : List (Option ℤ))
    (force_elapsed : Bool) : Bool :=
  if first_sent = false then true
  else if telemetry_changed angles last then true
  else force_elapsed

/-- Emission decision of the websocket variant (`app.py` 689-695):
emit on the first sample, on `angles != last`, or when the force
interval has elapsed. -/
def should_send_ws (first_sent : Bool) (angles last : List (Option ℤ))
    (force_elapsed : Bool) : Bool :=
  !first_sent || angles ≠ last || force_elapsed

/-! ### Action engine (`action_hug.py`, `action_heart.py`,
`action_init_pose.py`)

Time is a millisecond counter that advances by the sleeps the code
performs: 30ms per reliable write (the fixed guard delay) and the
requested duration per hold.  The cancellation flag is modelled by the
instant `cancel_at` from which `cancel_event.is_set()` is true (the
flag is monotonic: preemption only ever sets it). -/

/-- Number of flag checks `_sleep_interruptible` performs during a hold
of `ms` milliseconds: one at entry and one after each full or partial
50ms step, i.e. at offsets `50*k` with `50*k < ms`. -/
def check_count (ms : ℕ) : ℕ := (ms + 49) / 50

/-- Index of the first check at or after the flag-set instant `t` for a
hold starting at clock `c`. -/
def first_check (c t : ℕ) : ℕ := if t ≤ c then 0 else (t - c + 49) / 50

/-- The clock at which a hold starting at `c` of length `ms` first
observes a flag set at instant `t`, or `none` if every check of this
hold precedes `t`. -/
def obs_time (c ms t : ℕ) : Option ℕ :=
  if first_check c t < check_count ms then some (c + 50 * first_check c t)
  else none

/-- `_sleep_interruptible(seconds, cancel_event)` (`action_hug.py`
50-60): poll the flag every 50ms during the hold; `some τ` means the
hold returned `False` (cancelled) at clock `τ`, `none` means it slept
through. -/
def sleep_interruptible (c ms : ℕ) : Option ℕ → Option ℕ
  | none => none
  | some t => obs_time c ms t

/-- One step of a gesture routine: a reliable 6-axis pose write or an
interruptible hold. -/
inductive Instr
  | write (pose : List ℤ) (time_ms : ℕ)
  | hold (ms : ℕ)
  deriving DecidableEq, Repr

/-- Result of running a gesture routine: whether a hold observed the
cancellation flag, the clock at return, and the successful device
sends (time, pose). -/
structure RunResult where
  cancelled : Bool
  clock : ℕ
  writes : List (ℕ × List ℤ)
  deriving DecidableEq, Repr

/-- `_write6_reliable(angles, time_ms)` (`action_hug.py` 23-48): send
once under the arbiter (a raised fault is swallowed), wait 30ms, then
send once more if the arbiter is free within 50ms (a fault there is
swallowed too).  `fault1`/`fault2` say whether each send raises,
`lock2` whether the second acquisition succeeds; only non-faulting
sends reach the bus. -/
def write6_sends (c : ℕ) (pose : List ℤ) (fault1 fault2 lock2 : Bool) :
    List (ℕ × List ℤ) :=
  (if fault1 then [] else [(c, pose)]) ++
    (if lock2 && !fault2 then [(c + 30, pose)] else [])

/-- Interpreter for a gesture routine (`run` of `action_hug.py` /
`action_heart.py`): execute the steps in order; a write never aborts
the sequence, and the first hold that observes the flag makes the
routine return immediately, performing no further steps.  `faults`
and `lock_ok` are oracles indexed by write number. -/
def run_instrs (faults lock_ok : ℕ → Bool) (cancel_at : Option ℕ) :
    List Instr → ℕ → ℕ → RunResult
  | [], c, _ => ⟨false, c, []⟩
  | .write p _tms :: rest, c, wi =>
    let ws := write6_sends c p (faults (2 * wi)) (faults (2 * wi + 1)) (lock_ok wi)
    let r := run_instrs faults lock_ok cancel_at rest (c + 30) (wi + 1)
    ⟨r.cancelled, r.clock, ws ++ r.writes⟩
  | .hold ms :: rest, c, wi =>
    match sleep_interruptible c ms cancel_at with
    | some τ => ⟨true, τ, []⟩
    | none => run_instrs faults lock_ok cancel_at rest (c + ms) wi

/-- Neutral pose shared by the gestures. -/
def neutral : List ℤ := [90, 150, 20, 20, 90, 30]

def left_open : List ℤ := [90, 90, 85, 65, 90, 30]

def left_close1 : List ℤ := [90, 85, 65, 65, 90, 30]

def left_close2 : List ℤ := [90, 65, 60, 80, 90, 30]

def left_pat_a : List ℤ := [90, 65, 60, 55, 90, 120]

def left_pat_b : List ℤ := [90, 65, 60, 70, 90, 30]

def heart_p1 : List ℤ := [0, 115, 40, 20, 90, 0]

def heart_p2 : List ℤ := [0, 50, 55, 20, 90, 0]

def heart_p3 : List ℤ := [0, 50, 25, 0, 90, 0]

/-- Pose selection by robot orientation: `robot_right` mirrors, any
other identifier keeps the left-arm table. -/
def orient (robot_id : Option String) (p : List ℤ) : List ℤ :=
  if robot_id = some "robot_right" then mirror_for_right p else p

/-- The hug sequence (`action_hug.py` run, default config: move 1100ms,
hold-between 250ms, pat 450ms, pat-hold 150ms, 2 pat repeats, return
1200ms); the neutral return pose is not mirrored. -/
def hug_instrs (rid : Option String) : List Instr :=
  [.write (orient rid left_open) 1100, .hold 1100,
   .write (orient rid left_close1) 1100, .hold 1100, .hold 250,
   .write (orient rid left_close2) 1100, .hold 1100,
   .write (orient rid left_pat_a) 450, .hold 450, .hold 150,
   .write (orient rid left_pat_b) 450, .hold 450, .hold 150,
   .write (orient rid left_pat_a) 450, .hold 450, .hold 150,
   .write (orient rid left_pat_b) 450, .hold 450, .hold 150,
   .write neutral 1200, .hold 1200]

/-- The heart sequence (`action_heart.py` run, default config: move
1200ms, hold-between 300ms, final hold 400ms, neutral hold 1200ms). -/
def heart_instrs (rid : Option String) : List Instr :=
  [.write (orient rid heart_p1) 1200, .hold 1200, .hold 300,
   .write (orient rid heart_p2) 1200, .hold 1200, .hold 300,
   .write (orient rid heart_p3) 1200, .hold 1200,
   .hold 400,
   .write neutral 1200, .hold 1200]

/-- `ActionHug.run`: outcome string from the interpreter result. -/
def hug_run (faults lock_ok : ℕ → Bool) (cancel_at : Option ℕ)
    (rid : Option String) : String × RunResult :=
  let r := run_instrs faults lock_ok cancel_at (hug_instrs rid) 0 0
  (if r.cancelled then "hug_cancelled" else "hug_completed", r)

/-- `ActionHeart.run`: outcome string from the interpreter result. -/
def heart_run (faults lock_ok : ℕ → Bool) (cancel_at : Option ℕ)
    (rid : Option String) : String × RunResult :=
  let r := run_instrs faults lock_ok cancel_at (heart_instrs rid) 0 0
  (if r.cancelled then "heart_cancelled" else "heart_completed", r)

/-- `ActionInitPose.run` (`action_init_pose.py`): one direct
`write6_array` of `[90]*6` (a raised fault returns `"init_completed"`
immediately), a 1200ms hold, a 300ms settle hold; a hold observing the
flag returns `"init_cancelled"`. -/
def init_pose_run (write_fault : Bool) (cancel_at : Option ℕ) :
    String × List (ℕ × List ℤ) :=
  if write_fault then ("init_completed", [])
  else
    match sleep_interruptible 0 1200 cancel_at with
    | some _ => ("init_cancelled", [(0, List.replicate 6 90)])
    | none =>
      match sleep_interruptible 1200 300 cancel_at with
      | some _ => ("init_cancelled", [(0, List.replicate 6 90)])
      | none => ("init_completed", [(0, List.replicate 6 90)])

/-! ### Action runner (`CarebotApp._start_action._runner`, `app.py`
503-539 / `app_mqtt.py` 554-586) -/

/-- The status written into the final result event: computed from
`cancel_event.is_set()` alone, after the routine returned. -/
def runner_status (flag_set : Bool) : String :=
  if flag_set then "cancelled" else "completed"

/-- The (status, outcome) pair of the result event the runner sends. -/
def runner_result_event (outcome : String) (flag_set : Bool) :
    String × String :=
  (runner_status flag_set, outcome)

/-! ### Preemption state machine (`app.py` `_preempt_current`,
`_start_action`, `_on_message`)

A small-step interleaving model of the dispatcher thread (the
transport callback processing gesture commands sequentially) and the
action runner threads.  Each constructor of `Step` is one atomic
action of the code:

* the dispatcher runs `_preempt_current` while holding `_cmd_lock`
  (lines 206-227) and `_start_action` while holding `_cmd_lock` again
  (lines 498-552);
* a runner executes its gesture routine (polling its cancellation
  event), sends its result, and then needs `_cmd_lock` inside its
  `finally` block to clear `_action_thread`/`_action_cancel`
  (lines 533-539) — unconditionally, even when those references
  already point to a later runner;
* `join(timeout=2.0)` inside `_preempt_current` returns either because
  the runner died or because the two seconds elapsed; while the
  dispatcher holds `_cmd_lock`, a runner waiting in its `finally`
  cannot die, so the timeout is the only way the join can return. -/

/-- Program counter of one action runner thread: executing the gesture
routine (driving the hardware), waiting in `finally` for `_cmd_lock`,
or terminated. -/
inductive RPC
  | gesture
  | cleanup
  | done
  deriving DecidableEq, Repr

/-- One action runner thread: its position and its own cancellation
event. -/
structure RState where
  pc : RPC
  cancel : Bool
  deriving DecidableEq, Repr

/-- Program counter of the dispatcher thread inside
`_on_message`-driven processing of one gesture command. -/
inductive DPC
  | idle
  | preemptEnter
  | preempting
  | joining (i : ℕ)
  | preemptDone
  | startEnter
  | starting
  deriving DecidableEq, Repr

/-- Global state: commands still to process, dispatcher position,
whether `_cmd_lock` is held, `_action_thread` (an index into
`runners`), whether the tracking loop runs, and all runner threads ever
spawned. -/
structure Sys where
  pending : ℕ
  dpc : DPC
  lock : Bool
  refs : Option ℕ
  tracking : Bool
  runners : List RState
  deriving DecidableEq, Repr

/-- `self._action_thread is not None and self._action_thread.is_alive()`
(`app.py` 217). -/
def action_alive (s : Sys) : Bool :=
  match s.refs with
  | none => false
  | some i =>
    match s.runners.get? i with
    | none => false
    | some r => r.pc ≠ RPC.done

/-- Atomic transitions of the dispatcher and the runner threads. -/
inductive Step : Sys → Sys → Prop
  | takeCmd (s s' : Sys) (h : s.dpc = DPC.idle) (hp : 0 < s.pending)
      (h' : s' = { s with pending := s.pending - 1, dpc := DPC.preemptEnter }) :
      Step s s'
  | preemptAcquire (s s' : Sys) (h : s.dpc = DPC.preemptEnter)
      (hl : s.lock = false)
      (h' : s' = { s with lock := true, dpc := DPC.preempting }) :
      Step s s'
  | preemptSkip (s s' : Sys) (h : s.dpc = DPC.preempting)
      (ha : action_alive s = false)
      (h' : s' = { s with tracking := false, dpc := DPC.preemptDone }) :
      Step s s'
  | preemptCancel (s s' : Sys) (i : ℕ) (r : RState)
      (h : s.dpc = DPC.preempting) (hr : s.refs = some i)
      (hg : s.runners.get? i = some r) (halive : r.pc ≠ RPC.done)
      (h' : s' = { s with tracking := false,
                          runners := s.runners.set i { r with cancel := true },
                          dpc := DPC.joining i }) :
      Step s s'
  | joinOk (s s' : Sys) (i : ℕ) (r : RState) (h : s.dpc = DPC.joining i)
      (hg : s.runners.get? i = some r) (hdone : r.pc = RPC.done)
      (h' : s' = { s with dpc := DPC.preemptDone }) :
      Step s s'
  | joinTimeout (s s' : Sys) (i : ℕ) (r : RState) (h : s.dpc = DPC.joining i)
      (hg : s.runners.get? i = some r) (halive : r.pc ≠ RPC.done)
      (h' : s' = { s with dpc := DPC.preemptDone }) :
      Step s s'
  | preemptFinish (s s' : Sys) (h : s.dpc = DPC.preemptDone)
      (h' : s' = { s with refs := none, lock := false, dpc := DPC.startEnter }) :
      Step s s'
  | startAcquire (s s' : Sys) (h : s.dpc = DPC.startEnter)
      (hl : s.lock = false)
      (h' : s' = { s with lock := true, dpc := DPC.starting }) :
      Step s s'
  | startDo (s s' : Sys) (h : s.dpc = DPC.starting)
      (h' : s' = { s with runners := s.runners ++ [⟨RPC.gesture, false⟩],
                          refs := some s.runners.length,
                          lock := false, dpc := DPC.idle }) :
      Step s s'
  | runnerFinish (s s' : Sys) (i : ℕ) (r : RState)
      (hg : s.runners.get? i = some r) (hpc : r.pc = RPC.gesture)
      (h' : s' = { s with runners := s.runners.set i { r with pc := RPC.cleanup } }) :
      Step s s'
  | runnerCleanup (s s' : Sys) (i : ℕ) (r : RState)
      (hg : s.runners.get? i = some r) (hpc : r.pc = RPC.cleanup)
      (hl : s.lock = false)
      (h' : s' = { s with runners := s.runners.set i { r with pc := RPC.done },
                          refs := none }) :
      Step s s'

/-- Reachability from a state via `Step`. -/
def Reach (s s' : Sys) : Prop := Relation.ReflTransGen Step s s'

/-- Number of simultaneously running activities: gesture routines
actively executing plus the tracking loop. -/
def running_activities (s : Sys) : ℕ :=
  (s.runners.filter fun r => r.pc == RPC.gesture).length +
    (if s.tracking then 1 else 0)

/-- Initial state: three queued gesture commands (for example `hug`,
`init_pose`, `make_heart`), nothing running. -/
def c1_init : Sys := ⟨3, DPC.idle, false, none, false, []⟩

/-- The state reached by the interleaving in which the first runner's
join times out (forced: it waits for `_cmd_lock`, which the joining
dispatcher holds), the second command's `_start_action` wins the lock
race, the first runner's `finally` then clears the second runner's
handle, and the third command therefore preempts nothing. -/
def c1_final : Sys :=
  ⟨0, DPC.idle, false, some 2, false,
   [⟨RPC.done, true⟩, ⟨RPC.gesture, false⟩, ⟨RPC.gesture, false⟩]⟩

/-- A written angle (or every entry of a written vector) lies in
`[0,180]`; reads are unconstrained. -/
def op_angles_ok : DeviceOp → Prop
  | .read_joint _ => True
  | .write_joint _ a _ => 0 ≤ a ∧ a ≤ 180
  | .write6 l _ => ∀ a ∈ l, 0 ≤ a ∧ a ≤ 180

/-! ## Theorems -/

theorem clamp180_mem (v : ℤ) : 0 ≤ clamp180 v ∧ clamp180 v ≤ 180 := by
  unfold clamp180; omega

/-- Claim C7: for a gesture pose `[a0,a1,a2,a3,a4,a5]` with every
component in `[0,180]`, the right-orientation transform yields exactly
`[180-a0, a1, a2, a3, 180-a4, a5]`: only the base axis and the
wrist-yaw axis are reflected, the other four components are
unchanged. -/
theorem c7_mirror_right_transform (a0 a1 a2 a3 a4 a5 : ℤ)
    (h0 : 0 ≤ a0 ∧ a0 ≤ 180) (h1 : 0 ≤ a1 ∧ a1 ≤ 180)
    (h2 : 0 ≤ a2 ∧ a2 ≤ 180) (h3 : 0 ≤ a3 ∧ a3 ≤ 180)
    (h4 : 0 ≤ a4 ∧ a4 ≤ 180) (h5 : 0 ≤ a5 ∧ a5 ≤ 180) :
    mirror_for_right [a0, a1, a2, a3, a4, a5] =
      [180 - a0, a1, a2, a3, 180 - a4, a5] := by
  simp [mirror_for_right, clamp180, List.set]
  omega

theorem c7_mirror_right_transform_witness :
    (0 ≤ (90 : ℤ) ∧ (90 : ℤ) ≤ 180) ∧
      mirror_for_right [90, 150, 20, 20, 90, 30] =
        [90, 150, 20, 20, 90, 30] := by
  refine ⟨by decide, ?_⟩
  have h := c7_mirror_right_transform 90 150 20 20 90 30
    (by decide) (by decide) (by decide) (by decide) (by decide) (by decide)
  simpa using h

/-- Claim C2: every angle the code hands to the hardware lies in
`[0,180]` on every write path — `set_joint`, `set_joints` and the
visual-servo tracker's commanded 6-axis pose (whose pan stays in
`[0,180]`, whose tilt stays in `[0,360]` and is halved in the pose) —
and `set_joint(id=3, angle=250, time_ms=500)` writes 180 and returns
`ok`. -/
theorem c2_angles_clamped_to_range :
    (∀ sid a t f, ∀ op ∈ (set_joint sid a t f).2, op_angles_ok op) ∧
    (∀ angles t f, ∀ op ∈ (set_joints angles t f).2, op_angles_ok op) ∧
    (∀ sid d t rd f, ∀ op ∈ (nudge_joint sid d t rd f).2, op_angles_ok op) ∧
    (∀ sx sy px py, 0 ≤ sx → sx ≤ 180 → 0 ≤ sy → sy ≤ 360 →
      (0 ≤ (tracker_tick sx sy px py).1 ∧ (tracker_tick sx sy px py).1 ≤ 180) ∧
      (0 ≤ (tracker_tick sx sy px py).2 ∧ (tracker_tick sx sy px py).2 ≤ 360) ∧
      (∀ q ∈ tracker_joints (tracker_tick sx sy px py).1
          (tracker_tick sx sy px py).2, 0 ≤ q ∧ q ≤ 180)) ∧
    set_joint 3 250 500 false = ("ok", [DeviceOp.write_joint 3 180 500]) := by
  refine ⟨?_, ?_, ?_, ?_, by decide⟩
  · intro sid a t f op hop
    have ha := clamp180_mem a
    cases f <;> simp [set_joint] at hop <;> simp [hop, op_angles_ok, ha]
  · intro angles t f op hop
    match angles with
    | none => simp [set_joints] at hop
    | some l =>
      by_cases hl : l.length = 6
      · match hz : toInts l with
        | none => simp [set_joints, hl, hz] at hop
        | some zs =>
          cases f <;> simp [set_joints, hl, hz] at hop <;>
            · simp only [hop, op_angles_ok, List.mem_map]
              rintro a ⟨b, -, rfl⟩
              exact clamp180_mem b
      · simp [set_joints, hl] at hop
  · intro sid d t rd f op hop
    match rd with
    | .raises | .absent | .non_numeric =>
      simp [nudge_joint] at hop; simp [hop, op_angles_ok]
    | .value v =>
      have hc := clamp180_mem (v + d)
      cases f <;> simp [nudge_joint] at hop <;>
        rcases hop with h | h <;> simp [h, op_angles_ok, hc]
  · intro sx sy px py h1 h2 h3 h4
    have hx : 0 ≤ (tracker_tick sx sy px py).1 ∧
        (tracker_tick sx sy px py).1 ≤ 180 := by
      match px with
      | none => simpa [tracker_tick] using And.intro h1 h2
      | some v => simp [tracker_tick, clamp_servo_x]; split <;> omega
    have hy : 0 ≤ (tracker_tick sx sy px py).2 ∧
        (tracker_tick sx sy px py).2 ≤ 360 := by
      match py with
      | none => simpa [tracker_tick] using And.intro h3 h4
      | some v => simp [tracker_tick, clamp_servo_y]; split <;> omega
    refine ⟨hx, hy, ?_⟩
    intro q hq
    simp only [tracker_joints, List.mem_cons, List.not_mem_nil, or_false] at hq
    have hyq : (0 : ℚ) ≤ ((tracker_tick sx sy px py).2 : ℚ) ∧
        ((tracker_tick sx sy px py).2 : ℚ) ≤ 360 := by
      constructor <;> [exact_mod_cast hy.1; exact_mod_cast hy.2]
    rcases hq with rfl | rfl | rfl | rfl | rfl | rfl
    · constructor <;> [exact_mod_cast hx.1; exact_mod_cast hx.2]
    · constructor <;> norm_num
    · constructor <;> linarith [hyq.1, hyq.2]
    · constructor <;> linarith [hyq.1, hyq.2]
    · constructor <;> norm_num
    · constructor <;> norm_num

theorem c2_angles_clamped_to_range_witness :
    ((0 ≤ (tracker_tick 90 45 (some 9999) (some (-7))).1 ∧
        (tracker_tick 90 45 (some 9999) (some (-7))).1 ≤ 180) ∧
      (0 ≤ (tracker_tick 90 45 (some 9999) (some (-7))).2 ∧
        (tracker_tick 90 45 (some 9999) (some (-7))).2 ≤ 360) ∧
      (∀ q ∈ tracker_joints (tracker_tick 90 45 (some 9999) (some (-7))).1
          (tracker_tick 90 45 (some 9999) (some (-7))).2, 0 ≤ q ∧ q ≤ 180)) ∧
    set_joint 3 250 500 false = ("ok", [DeviceOp.write_joint 3 180 500]) :=
  ⟨c2_angles_clamped_to_range.2.2.2.1 90 45 (some 9999) (some (-7))
      (by decide) (by decide) (by decide) (by decide),
   c2_angles_clamped_to_range.2.2.2.2⟩

/-- Claim C4: for every id in `[1,6]` and integral delta,
`nudge_joint` returns `read_failed` and performs no write whenever the
read raises, returns absent, or yields a non-numeric value; otherwise
it writes `clamp(current + delta, 0, 180)` to that joint and returns
`ok`. -/
theorem c4_nudge_read_failed_or_clamped_write (sid delta t : ℤ)
    (rd : ReadResult) (f : Bool) (hsid : 1 ≤ sid ∧ sid ≤ 6) :
    (rd = ReadResult.raises ∨ rd = ReadResult.absent ∨
        rd = ReadResult.non_numeric →
      nudge_joint sid delta t rd f =
        ("error:read_failed", [DeviceOp.read_joint sid])) ∧
    (∀ v, rd = ReadResult.value v →
      nudge_joint sid delta t rd false =
        ("ok", [DeviceOp.read_joint sid,
                DeviceOp.write_joint sid (max 0 (min 180 (v + delta)))
                  (max 0 t)])) := by
  constructor
  · rintro (rfl | rfl | rfl) <;> rfl
  · rintro v rfl
    simp [nudge_joint, clamp180]

theorem c4_nudge_read_failed_or_clamped_write_witness :
    ((ReadResult.absent = ReadResult.raises ∨
        ReadResult.absent = ReadResult.absent ∨
        ReadResult.absent = ReadResult.non_numeric →
      nudge_joint 2 10 300 ReadResult.absent false =
        ("error:read_failed", [DeviceOp.read_joint 2])) ∧
    (∀ v, ReadResult.absent = ReadResult.value v →
      nudge_joint 2 10 300 ReadResult.absent false =
        ("ok", [DeviceOp.read_joint 2,
                DeviceOp.write_joint 2 (max 0 (min 180 (v + 10)))
                  (max 0 300)]))) ∧
    ((ReadResult.value 175 = ReadResult.raises ∨
        ReadResult.value 175 = ReadResult.absent ∨
        ReadResult.value 175 = ReadResult.non_numeric →
      nudge_joint 2 10 300 (ReadResult.value 175) false =
        ("error:read_failed", [DeviceOp.read_joint 2])) ∧
    (∀ v, ReadResult.value 175 = ReadResult.value v →
      nudge_joint 2 10 300 (ReadResult.value 175) false =
        ("ok", [DeviceOp.read_joint 2,
                DeviceOp.write_joint 2 (max 0 (min 180 (v + 10)))
                  (max 0 300)]))) :=
  ⟨c4_nudge_read_failed_or_clamped_write 2 10 300 ReadResult.absent false
      (by decide),
   c4_nudge_read_failed_or_clamped_write 2 10 300 (ReadResult.value 175) false
      (by decide)⟩

/-- Claim C5 is refuted: the router does not lowercase the command
name.  For the inbound name `"HUG"` the code answers
`unknown_command` and dispatches no handler, although the claimed
normalization (trim, then lowercase, then synonym-map) resolves it to
the hug handler. -/
theorem c5_counterexample :
    on_message "HUG" = [Ev.ack "HUG", Ev.preempt, Ev.error "unknown_command"] ∧
    route_name_claimed "HUG" = some Handler.hug ∧
    (∀ h : Handler, Ev.dispatch h ∉ on_message "HUG") := by
  refine ⟨by decide, by decide, ?_⟩
  intro h hmem
  have he : on_message "HUG" =
      [Ev.ack "HUG", Ev.preempt, Ev.error "unknown_command"] := by decide
  rw [he] at hmem
  simp at hmem

/-- Claim C5 (amended): the router normalizes the inbound command name
by trimming whitespace only (no lowercasing), resolves the synonyms
(`face_tracking`/`face_tracking_mode` and a localized alias start
tracking; `stop_face_tracking`/`stop_face_tracking_mode` stop tracking;
`make_hug` maps to hug; `init`/`ready_pose` map to `init_pose`), fails
with `missing_command` when the trimmed name is empty and with
`unknown_command` for every other unmapped name; a mapped command is
first acknowledged as accepted, then preemption runs, then exactly one
handler is dispatched. -/
theorem c5_router_amended (command : String) :
    (py_strip command = "" → on_message command = [Ev.error "missing_command"]) ∧
    (∀ h : Handler, route_name (py_strip command) = some h →
      on_message command = [Ev.ack (py_strip command), Ev.preempt, Ev.dispatch h]) ∧
    (py_strip command ≠ "" → route_name (py_strip command) = none →
      on_message command =
        [Ev.ack (py_strip command), Ev.preempt, Ev.error "unknown_command"]) ∧
    (route_name "face_tracking" = some Handler.start_tracking ∧
     route_name "face_tracking_mode" = some Handler.start_tracking ∧
     route_name "face_tracking_모드" = some Handler.start_tracking ∧
     route_name "stop_face_tracking" = some Handler.stop_tracking ∧
     route_name "stop_face_tracking_mode" = some Handler.stop_tracking ∧
     route_name "make_heart" = some Handler.make_heart ∧
     route_name "hug" = some Handler.hug ∧
     route_name "make_hug" = some Handler.hug ∧
     route_name "init_pose" = some Handler.init_pose ∧
     route_name "init" = some Handler.init_pose ∧
     route_name "ready_pose" = some Handler.init_pose ∧
     route_name "set_joint" = some Handler.set_joint ∧
     route_name "set_joints" = some Handler.set_joints ∧
     route_name "nudge_joint" = some Handler.nudge_joint) := by
  refine ⟨?_, ?_, ?_, by decide⟩
  · intro h; simp [on_message, h]
  · intro h hr
    have hne : py_strip command ≠ "" := by
      intro he
      rw [he] at hr
      revert hr
      cases h <;> decide
    simp [on_message, hne, hr]
  · intro hne hr
    simp [on_message, hne, hr]

theorem c5_router_amended_witness :
    on_message "" = [Ev.error "missing_command"] ∧
    on_message " hug " =
      [Ev.ack (py_strip " hug "), Ev.preempt, Ev.dispatch Handler.hug] ∧
    on_message "bogus" =
      [Ev.ack (py_strip "bogus"), Ev.preempt, Ev.error "unknown_command"] :=
  ⟨(c5_router_amended "").1 (by decide),
   (c5_router_amended " hug ").2.1 Handler.hug (by decide),
   (c5_router_amended "bogus").2.2.1 (by decide) (by decide)⟩

/-- Claim C9 is refuted in both of its reporting halves.  Start half:
with the loop thread alive (`⟨some true⟩`) a start is indeed a no-op
(`start()` returns `False` and spawns no new loop), but the app
reports status `"running"` — not `"already running"` — because the
status test is `started or is_running()`.  Stop half: with a dead loop
thread still in the slot (`⟨some false⟩`, the state left behind when
the loop terminates on its own, e.g. on camera-open failure)
`is_running()` is `false` — the tracker is not running — yet `stop()`
returns `True` and the app reports `"stopped"`, not "not running". -/
theorem c9_counterexample :
    (tracker_start ⟨some true⟩ = (false, ⟨some true⟩, false) ∧
      cmd_start_face_tracking ⟨some true⟩ = ("running", ⟨some true⟩) ∧
      "running" ≠ "already_running") ∧
    (tracker_is_running ⟨some false⟩ = false ∧
      tracker_stop ⟨some false⟩ = (true, ⟨none⟩) ∧
      cmd_stop_face_tracking ⟨some false⟩ = ("stopped", ⟨none⟩) ∧
      "stopped" ≠ "not_running") := by
  decide

/-- Claim C9 (amended): starting the tracker while it is already
running is a no-op that does not restart the loop (`start()` returns
`false`, the state is unchanged, no new loop thread is spawned) and is
reported with status `"running"` rather than "already running".  Stop
is idempotent in state — after any stop no loop thread remains, and
stopping again changes nothing — but its report depends on the thread
slot rather than on whether the tracker is running: with no thread
object `stop()` returns `false` and is reported `"not_running"`, while
with a thread object present — alive, or already dead as after a
camera-open failure — `stop()` returns `true` and is reported
`"stopped"`. -/
theorem c9_tracker_idempotence_amended (t : Tracker) :
    (tracker_is_running t = true →
      tracker_start t = (false, t, false) ∧
      cmd_start_face_tracking t = ("running", t)) ∧
    (t.thread = none →
      tracker_stop t = (false, t) ∧
      cmd_stop_face_tracking t = ("not_running", t)) ∧
    (∀ b : Bool, t.thread = some b →
      tracker_stop t = (true, ⟨none⟩) ∧
      cmd_stop_face_tracking t = ("stopped", ⟨none⟩)) ∧
    (tracker_is_running (tracker_stop t).2 = false ∧
      (tracker_stop (tracker_stop t).2).2 = (tracker_stop t).2) := by
  refine ⟨?_, ?_, ?_, ?_⟩
  · intro h
    have h1 : tracker_start t = (false, t, false) := by
      simp [tracker_start, h]
    exact ⟨h1, by simp [cmd_start_face_tracking, h1, h]⟩
  · intro h
    have h1 : tracker_stop t = (false, t) := by
      simp [tracker_stop, h]
    exact ⟨h1, by simp [cmd_stop_face_tracking, h1]⟩
  · intro b h
    have h1 : tracker_stop t = (true, ⟨none⟩) := by
      simp [tracker_stop, h]
    exact ⟨h1, by simp [cmd_stop_face_tracking, h1]⟩
  · rcases t with ⟨_ | b⟩
    · exact ⟨rfl, rfl⟩
    · exact ⟨rfl, rfl⟩

theorem c9_tracker_idempotence_amended_witness :
    (tracker_start ⟨some true⟩ = (false, ⟨some true⟩, false) ∧
      cmd_start_face_tracking ⟨some true⟩ = ("running", ⟨some true⟩)) ∧
    (tracker_stop ⟨none⟩ = (false, ⟨none⟩) ∧
      cmd_stop_face_tracking ⟨none⟩ = ("not_running", ⟨none⟩)) ∧
    (tracker_stop ⟨some false⟩ = (true, ⟨none⟩) ∧
      cmd_stop_face_tracking ⟨some false⟩ = ("stopped", ⟨none⟩)) :=
  ⟨(c9_tracker_idempotence_amended ⟨some true⟩).1 (by decide),
   (c9_tracker_idempotence_amended ⟨none⟩).2.1 rfl,
   (c9_tracker_idempotence_amended ⟨some false⟩).2.2.1 false rfl⟩

theorem axis_changed_iff (x y : Option ℤ) :
    axis_changed x y = true ↔ x ≠ y := by
  cases x <;> cases y <;> simp [axis_changed]
  rename_i a b
  constructor
  · intro h heq
    subst heq
    simp at h
  · intro hne
    exact Int.one_le_abs (sub_ne_zero.mpr hne)

theorem telemetry_changed_iff (a l : List (Option ℤ))
    (h : a.length = l.length) : telemetry_changed a l = true ↔ a ≠ l := by
  induction a generalizing l with
  | nil =>
    cases l with
    | nil => simp [telemetry_changed]
    | cons y ys => simp at h
  | cons x xs ih =>
    cases l with
    | nil => simp at h
    | cons y ys =>
      have hlen : xs.length = ys.length := by simpa using h
      have ihy := ih ys hlen
      simp only [telemetry_changed, List.zip_cons_cons, List.any_cons,
        Bool.or_eq_true] at ihy ⊢
      rw [axis_changed_iff, ihy]
      simp only [ne_eq, List.cons.injEq, not_and]
      tauto

/-- Claim C6: a telemetry event is emitted only on the first
successful sample, or when at least one axis changed by at least one
degree (a `None` against a known value counts as changed), or when the
force interval has elapsed; with identical angles and the interval not
elapsed nothing is emitted; with the interval elapsed an event is
emitted even with identical angles.  The websocket variant's
`angles != last` test is equivalent. -/
theorem c6_telemetry_emission (first_sent force_elapsed : Bool)
    (angles last : List (Option ℤ)) (h6a : angles.length = 6)
    (h6b : last.length = 6) :
    should_send true angles angles false = false ∧
    should_send first_sent angles last true = true ∧
    (should_send first_sent angles last force_elapsed = true →
      first_sent = false ∨ telemetry_changed angles last = true ∨
        force_elapsed = true) ∧
    (telemetry_changed angles last = true ↔ angles ≠ last) ∧
    should_send_ws first_sent angles last force_elapsed =
      should_send first_sent angles last force_elapsed := by
  have hiff := telemetry_changed_iff angles last (h6a.trans h6b.symm)
  have hself : telemetry_changed angles angles = false := by
    rcases hc : telemetry_changed angles angles with _ | _
    · rfl
    · exact absurd rfl ((telemetry_changed_iff angles angles rfl).mp hc)
  refine ⟨by simp [should_send, hself], ?_, ?_, hiff, ?_⟩
  · cases first_sent
    · simp [should_send]
    · simp only [should_send]
      split <;> simp
  · intro hs
    cases first_sent
    · exact Or.inl rfl
    · rcases hc : telemetry_changed angles last with _ | _
      · simp [should_send, hc] at hs
        exact Or.inr (Or.inr hs)
      · exact Or.inr (Or.inl rfl)
  · have hcd : telemetry_changed angles last = decide (angles ≠ last) := by
      by_cases hne : angles = last
      · subst hne
        simp [hself]
      · simp [hne, hiff.mpr hne]
    cases first_sent
    · simp [should_send, should_send_ws]
    · simp only [should_send, should_send_ws, hcd, Bool.not_true,
        Bool.false_or]
      by_cases hne : angles = last
      · simp [hne]
      · simp [hne]

theorem obs_time_le (c ms t τ : ℕ) (h : obs_time c ms t = some τ) :
    c ≤ τ ∧ t ≤ τ := by
  unfold obs_time at h
  by_cases hlt : first_check c t < check_count ms
  · rw [if_pos hlt] at h
    obtain rfl := Option.some.inj h
    unfold first_check
    split <;> omega
  · rw [if_neg hlt] at h
    cases h

theorem run_instrs_none_not_cancelled (f lk : ℕ → Bool) (l : List Instr) :
    ∀ c wi, (run_instrs f lk none l c wi).cancelled = false := by
  induction l with
  | nil => intro c wi; rfl
  | cons i rest ih =>
    intro c wi
    cases i with
    | write p tms => simp [run_instrs, ih]
    | hold ms => simp [run_instrs, sleep_interruptible, ih]

theorem run_instrs_oracle_indep (f lk g gk : ℕ → Bool) (a : Option ℕ)
    (l : List Instr) :
    ∀ c wi wj,
      (run_instrs f lk a l c wi).cancelled =
          (run_instrs g gk a l c wj).cancelled ∧
        (run_instrs f lk a l c wi).clock = (run_instrs g gk a l c wj).clock := by
  induction l with
  | nil => intro c wi wj; exact ⟨rfl, rfl⟩
  | cons i rest ih =>
    intro c wi wj
    cases i with
    | write p tms => simpa [run_instrs] using ih (c + 30) (wi + 1) (wj + 1)
    | hold ms =>
      cases hs : sleep_interruptible c ms a with
      | some τ => simp [run_instrs, hs]
      | none => simpa [run_instrs, hs] using ih (c + ms) wi wj

theorem run_instrs_clock_mono (f lk : ℕ → Bool) (a : Option ℕ)
    (l : List Instr) :
    ∀ c wi, c ≤ (run_instrs f lk a l c wi).clock := by
  induction l with
  | nil => intro c wi; exact le_refl c
  | cons i rest ih =>
    intro c wi
    cases i with
    | write p tms =>
      have h := ih (c + 30) (wi + 1)
      simp only [run_instrs]
      omega
    | hold ms =>
      cases hs : sleep_interruptible c ms a with
      | some τ =>
        have hτ : c ≤ τ := by
          cases a with
          | none => cases hs
          | some t => exact (obs_time_le c ms t τ hs).1
        simp [run_instrs, hs, hτ]
      | none =>
        have h := ih (c + ms) wi
        simp only [run_instrs, hs]
        omega

theorem mem_write6_sends (c : ℕ) (p : List ℤ) (b1 b2 b3 : Bool)
    (e : ℕ × List ℤ) (h : e ∈ write6_sends c p b1 b2 b3) :
    e.1 = c ∨ e.1 = c + 30 := by
  unfold write6_sends at h
  rcases List.mem_append.mp h with h | h <;> (split at h <;> simp at h) <;>
    simp [h]

theorem run_instrs_writes_le_clock (f lk : ℕ → Bool) (a : Option ℕ)
    (l : List Instr) :
    ∀ c wi, ∀ e ∈ (run_instrs f lk a l c wi).writes,
      e.1 ≤ (run_instrs f lk a l c wi).clock := by
  induction l with
  | nil => intro c wi e he; simp [run_instrs] at he
  | cons i rest ih =>
    intro c wi e he
    cases i with
    | write p tms =>
      simp only [run_instrs] at he ⊢
      have hcl := run_instrs_clock_mono f lk a rest (c + 30) (wi + 1)
      rcases List.mem_append.mp he with hw | hw
      · rcases mem_write6_sends _ _ _ _ _ _ hw with h1 | h1 <;> omega
      · exact ih (c + 30) (wi + 1) e hw
    | hold ms =>
      cases hs : sleep_interruptible c ms a with
      | some τ => simp [run_instrs, hs] at he
      | none =>
        simp only [run_instrs, hs] at he ⊢
        exact ih (c + ms) wi e he

theorem run_instrs_cancelled_flag_le (f lk : ℕ → Bool) (t : ℕ)
    (l : List Instr) :
    ∀ c wi, (run_instrs f lk (some t) l c wi).cancelled = true →
      t ≤ (run_instrs f lk (some t) l c wi).clock := by
  induction l with
  | nil => intro c wi h; cases h
  | cons i rest ih =>
    intro c wi h
    cases i with
    | write p tms =>
      simp only [run_instrs] at h ⊢
      exact ih (c + 30) (wi + 1) h
    | hold ms =>
      cases hs : sleep_interruptible c ms (some t) with
      | some τ =>
        have := (obs_time_le c ms t τ hs).2
        simp [run_instrs, hs, this]
      | none =>
        simp only [run_instrs, hs] at h ⊢
        exact ih (c + ms) wi h

theorem obs_time_poll_guarantee (c ms t : ℕ) (h1 : 0 < ms)
    (h2 : t + 50 ≤ c + ms) : (obs_time c ms t).isSome = true := by
  have h : first_check c t < check_count ms := by
    unfold first_check check_count
    split <;> omega
  simp [obs_time, h]

/-- Claim C3: each built-in gesture returns exactly one of
`*_completed`/`*_cancelled`; with the flag never set every gesture
completes regardless of write faults (faults are swallowed, for
`init_pose` even a raising write yields `init_completed`); the outcome
of hug/heart does not depend on the fault or lock oracles at all; once
a hold observes the flag the routine returns at that instant, the flag
was set by then, and every hardware send happened no later than that
instant; and a hold of positive length observes any flag set at least
50ms before the hold ends (the flag is polled at least every 50ms). -/
theorem c3_gesture_outcomes_cancellation_faults
    (faults lock_ok g gk : ℕ → Bool) (cancel_at : Option ℕ)
    (rid : Option String) (wf : Bool) (t : ℕ) :
    ((hug_run faults lock_ok cancel_at rid).1 = "hug_completed" ∨
      (hug_run faults lock_ok cancel_at rid).1 = "hug_cancelled") ∧
    ((heart_run faults lock_ok cancel_at rid).1 = "heart_completed" ∨
      (heart_run faults lock_ok cancel_at rid).1 = "heart_cancelled") ∧
    ((init_pose_run wf cancel_at).1 = "init_completed" ∨
      (init_pose_run wf cancel_at).1 = "init_cancelled") ∧
    (hug_run faults lock_ok none rid).1 = "hug_completed" ∧
    (heart_run faults lock_ok none rid).1 = "heart_completed" ∧
    (init_pose_run wf none).1 = "init_completed" ∧
    (init_pose_run true cancel_at).1 = "init_completed" ∧
    (hug_run faults lock_ok cancel_at rid).1 =
      (hug_run g gk cancel_at rid).1 ∧
    (heart_run faults lock_ok cancel_at rid).1 =
      (heart_run g gk cancel_at rid).1 ∧
    (∀ l : List Instr, ∀ c wi,
      (run_instrs faults lock_ok (some t) l c wi).cancelled = true →
        t ≤ (run_instrs faults lock_ok (some t) l c wi).clock ∧
        ∀ e ∈ (run_instrs faults lock_ok (some t) l c wi).writes,
          e.1 ≤ (run_instrs faults lock_ok (some t) l c wi).clock) ∧
    (∀ c ms, 0 < ms → t + 50 ≤ c + ms →
      (sleep_interruptible c ms (some t)).isSome = true) := by
  refine ⟨?_, ?_, ?_, ?_, ?_, ?_, ?_, ?_, ?_, ?_, ?_⟩
  · cases hc : (run_instrs faults lock_ok cancel_at (hug_instrs rid) 0 0).cancelled <;>
      simp [hug_run, hc]
  · cases hc : (run_instrs faults lock_ok cancel_at (heart_instrs rid) 0 0).cancelled <;>
      simp [heart_run, hc]
  · unfold init_pose_run
    split
    · simp
    · split
      · simp
      · split <;> simp
  · simp [hug_run, run_instrs_none_not_cancelled]
  · simp [heart_run, run_instrs_none_not_cancelled]
  · unfold init_pose_run
    split
    · rfl
    · rfl
  · rfl
  · have h := run_instrs_oracle_indep faults lock_ok g gk cancel_at
      (hug_instrs rid) 0 0 0
    simp only [hug_run]
    rw [h.1]
  · have h := run_instrs_oracle_indep faults lock_ok g gk cancel_at
      (heart_instrs rid) 0 0 0
    simp only [heart_run]
    rw [h.1]
  · intro l c wi hc
    exact ⟨run_instrs_cancelled_flag_le faults lock_ok t l c wi hc,
      run_instrs_writes_le_clock faults lock_ok (some t) l c wi⟩
  · intro c ms h1 h2
    exact obs_time_poll_guarantee c ms t h1 h2

theorem c3_gesture_outcomes_cancellation_faults_witness :
    ((hug_run (fun _ => true) (fun _ => true) (some 100) none).1 =
        "hug_completed" ∨
      (hug_run (fun _ => true) (fun _ => true) (some 100) none).1 =
        "hug_cancelled") ∧
    (hug_run (fun _ => true) (fun _ => true) none none).1 =
      "hug_completed" ∧
    (init_pose_run true (some 100)).1 = "init_completed" ∧
    (100 ≤ (run_instrs (fun _ => true) (fun _ => true) (some 100)
        (hug_instrs none) 0 0).clock) ∧
    (sleep_interruptible 0 1100 (some 100)).isSome = true := by
  have h := c3_gesture_outcomes_cancellation_faults
    (fun _ => true) (fun _ => true) (fun _ => true) (fun _ => true)
    (some 100) none true 100
  refine ⟨h.1, h.2.2.2.1, h.2.2.2.2.2.2.1, ?_, ?_⟩
  · exact (h.2.2.2.2.2.2.2.2.2.1 (hug_instrs none) 0 0 (by decide)).1
  · exact h.2.2.2.2.2.2.2.2.2.2 0 1100 (by decide) (by decide)

/-- Claim C1 fails on the code: a state with two gesture activities
simultaneously running is reachable.  The trace: command 1 starts
runner 0; command 2's preemption sets runner 0's flag and joins it
while holding `_cmd_lock` — runner 0 leaves its gesture but blocks in
its `finally` on that very lock, so the 2-second join can only time
out; the dispatcher clears the handle, releases the lock, and
`_start_action` wins the reacquisition race, installing runner 1;
runner 0's pending cleanup then nulls runner 1's handle; command 3's
preemption therefore sees no action thread, cancels nothing, and
starts runner 2 while runner 1 is still driving the hardware. -/
theorem c1_two_running_gestures_reachable :
    Reach c1_init c1_final ∧ running_activities c1_final = 2 := by
  constructor
  · show Relation.ReflTransGen Step c1_init c1_final
    have h1 : Step ⟨3, DPC.idle, false, none, false, []⟩
        ⟨2, DPC.preemptEnter, false, none, false, []⟩ :=
      Step.takeCmd _ _ rfl (by decide) (by decide)
    have h2 : Step ⟨2, DPC.preemptEnter, false, none, false, []⟩
        ⟨2, DPC.preempting, true, none, false, []⟩ :=
      Step.preemptAcquire _ _ rfl rfl (by decide)
    have h3 : Step ⟨2, DPC.preempting, true, none, false, []⟩
        ⟨2, DPC.preemptDone, true, none, false, []⟩ :=
      Step.preemptSkip _ _ rfl (by decide) (by decide)
    have h4 : Step ⟨2, DPC.preemptDone, true, none, false, []⟩
        ⟨2, DPC.startEnter, false, none, false, []⟩ :=
      Step.preemptFinish _ _ rfl (by decide)
    have h5 : Step ⟨2, DPC.startEnter, false, none, false, []⟩
        ⟨2, DPC.starting, true, none, false, []⟩ :=
      Step.startAcquire _ _ rfl rfl (by decide)
    have h6 : Step ⟨2, DPC.starting, true, none, false, []⟩
        ⟨2, DPC.idle, false, some 0, false, [⟨RPC.gesture, false⟩]⟩ :=
      Step.startDo _ _ rfl (by decide)
    have h7 : Step ⟨2, DPC.idle, false, some 0, false, [⟨RPC.gesture, false⟩]⟩
        ⟨1, DPC.preemptEnter, false, some 0, false, [⟨RPC.gesture, false⟩]⟩ :=
      Step.takeCmd _ _ rfl (by decide) (by decide)
    have h8 : Step
        ⟨1, DPC.preemptEnter, false, some 0, false, [⟨RPC.gesture, false⟩]⟩
        ⟨1, DPC.preempting, true, some 0, false, [⟨RPC.gesture, false⟩]⟩ :=
      Step.preemptAcquire _ _ rfl rfl (by decide)
    have h9 : Step
        ⟨1, DPC.preempting, true, some 0, false, [⟨RPC.gesture, false⟩]⟩
        ⟨1, DPC.joining 0, true, some 0, false, [⟨RPC.gesture, true⟩]⟩ :=
      Step.preemptCancel _ _ 0 ⟨RPC.gesture, false⟩ rfl rfl (by decide)
        (by decide) (by decide)
    have h10 : Step
        ⟨1, DPC.joining 0, true, some 0, false, [⟨RPC.gesture, true⟩]⟩
        ⟨1, DPC.joining 0, true, some 0, false, [⟨RPC.cleanup, true⟩]⟩ :=
      Step.runnerFinish _ _ 0 ⟨RPC.gesture, true⟩ (by decide) rfl (by decide)
    have h11 : Step
        ⟨1, DPC.joining 0, true, some 0, false, [⟨RPC.cleanup, true⟩]⟩
        ⟨1, DPC.preemptDone, true, some 0, false, [⟨RPC.cleanup, true⟩]⟩ :=
      Step.joinTimeout _ _ 0 ⟨RPC.cleanup, true⟩ rfl (by decide) (by decide)
        (by decide)
    have h12 : Step
        ⟨1, DPC.preemptDone, true, some 0, false, [⟨RPC.cleanup, true⟩]⟩
        ⟨1, DPC.startEnter, false, none, false, [⟨RPC.cleanup, true⟩]⟩ :=
      Step.preemptFinish _ _ rfl (by decide)
    have h13 : Step
        ⟨1, DPC.startEnter, false, none, false, [⟨RPC.cleanup, true⟩]⟩
        ⟨1, DPC.starting, true, none, false, [⟨RPC.cleanup, true⟩]⟩ :=
      Step.startAcquire _ _ rfl rfl (by decide)
    have h14 : Step
        ⟨1, DPC.starting, true, none, false, [⟨RPC.cleanup, true⟩]⟩
        ⟨1, DPC.idle, false, some 1, false,
          [⟨RPC.cleanup, true⟩, ⟨RPC.gesture, false⟩]⟩ :=
      Step.startDo _ _ rfl (by decide)
    have h15 : Step
        ⟨1, DPC.idle, false, some 1, false,
          [⟨RPC.cleanup, true⟩, ⟨RPC.gesture, false⟩]⟩
        ⟨1, DPC.idle, false, none, false,
          [⟨RPC.done, true⟩, ⟨RPC.gesture, false⟩]⟩ :=
      Step.runnerCleanup _ _ 0 ⟨RPC.cleanup, true⟩ (by decide) rfl rfl
        (by decide)
    have h16 : Step
        ⟨1, DPC.idle, false, none, false,
          [⟨RPC.done, true⟩, ⟨RPC.gesture, false⟩]⟩
        ⟨0, DPC.preemptEnter, false, none, false,
          [⟨RPC.done, true⟩, ⟨RPC.gesture, false⟩]⟩ :=
      Step.takeCmd _ _ rfl (by decide) (by decide)
    have h17 : Step
        ⟨0, DPC.preemptEnter, false, none, false,
          [⟨RPC.done, true⟩, ⟨RPC.gesture, false⟩]⟩
        ⟨0, DPC.preempting, true, none, false,
          [⟨RPC.done, true⟩, ⟨RPC.gesture, false⟩]⟩ :=
      Step.preemptAcquire _ _ rfl rfl (by decide)
    have h18 : Step
        ⟨0, DPC.preempting, true, none, false,
          [⟨RPC.done, true⟩, ⟨RPC.gesture, false⟩]⟩
        ⟨0, DPC.preemptDone, true, none, false,
          [⟨RPC.done, true⟩, ⟨RPC.gesture, false⟩]⟩ :=
      Step.preemptSkip _ _ rfl (by decide) (by decide)
    have h19 : Step
        ⟨0, DPC.preemptDone, true, none, false,
          [⟨RPC.done, true⟩, ⟨RPC.gesture, false⟩]⟩
        ⟨0, DPC.startEnter, false, none, false,
          [⟨RPC.done, true⟩, ⟨RPC.gesture, false⟩]⟩ :=
      Step.preemptFinish _ _ rfl (by decide)
    have h20 : Step
        ⟨0, DPC.startEnter, false, none, false,
          [⟨RPC.done, true⟩, ⟨RPC.gesture, false⟩]⟩
        ⟨0, DPC.starting, true, none, false,
          [⟨RPC.done, true⟩, ⟨RPC.gesture, false⟩]⟩ :=
      Step.startAcquire _ _ rfl rfl (by decide)
    have h21 : Step
        ⟨0, DPC.starting, true, none, false,
          [⟨RPC.done, true⟩, ⟨RPC.gesture, false⟩]⟩
        ⟨0, DPC.idle, false, some 2, false,
          [⟨RPC.done, true⟩, ⟨RPC.gesture, false⟩, ⟨RPC.gesture, false⟩]⟩ :=
      Step.startDo _ _ rfl (by decide)
    exact .head h1 (.head h2 (.head h3 (.head h4 (.head h5 (.head h6
      (.head h7 (.head h8 (.head h9 (.head h10 (.head h11 (.head h12
      (.head h13 (.head h14 (.head h15 (.head h16 (.head h17 (.head h18
      (.head h19 (.head h20 (.head h21 .refl))))))))))))))))))))
  · decide

/-- Claim C10: the status of a gesture's final result event is
computed from `cancel_event.is_set()` alone at the moment the routine
returns — `"cancelled"` iff the flag is set — independently of the
outcome string the routine returned; concretely, a hug whose flag is
set at 7341ms (after the final hold's last 50ms check at 7340ms but
before the routine returns at 7390ms) yields outcome
`"hug_completed"` while the result event carries status
`"cancelled"`. -/
theorem c10_status_from_flag_independent_of_outcome :
    (∀ out out' : String, ∀ flag : Bool,
      runner_status flag = (if flag then "cancelled" else "completed") ∧
      (runner_result_event out flag).1 = (runner_result_event out' flag).1 ∧
      (runner_result_event out flag).2 = out) ∧
    (hug_run (fun _ => false) (fun _ => false) (some 7341) none).1 =
      "hug_completed" ∧
    (hug_run (fun _ => false) (fun _ => false) (some 7341) none).2.clock =
      7390 ∧
    7341 ≤ (hug_run (fun _ => false) (fun _ => false) (some 7341) none).2.clock ∧
    runner_result_event
        (hug_run (fun _ => false) (fun _ => false) (some 7341) none).1 true =
      ("cancelled", "hug_completed") := by
  refine ⟨fun out out' flag => ⟨rfl, rfl, rfl⟩, by decide, by decide,
    by decide, by decide⟩

/-- Claim C8: whenever a command fails with a validation error
(`invalid_sid` for an id outside `[1,6]` or a non-integer id,
`missing_angle`, `invalid_delta`, `invalid_angles` on a vector whose
length is not 6, `missing_command`, `unknown_command`), the error is
surfaced immediately and the command performs no serial-bus device
access at all — no joint read and no joint write. -/
theorem c8_validation_errors_no_device_access :
    (∀ angle t f, cmd_set_joint JVal.vnone angle t f = ("invalid_sid", []) ∧
        cmd_set_joint JVal.vbad angle t f = ("invalid_sid", [])) ∧
    (∀ n angle t f, n < 1 ∨ 6 < n →
        cmd_set_joint (JVal.vint n) angle t f = ("invalid_sid", [])) ∧
    (∀ n t f, 1 ≤ n → n ≤ 6 →
        cmd_set_joint (JVal.vint n) JVal.vnone t f = ("missing_angle", [])) ∧
    (∀ delta t rd f,
        cmd_nudge_joint JVal.vnone delta t rd f = ("invalid_sid", []) ∧
        cmd_nudge_joint JVal.vbad delta t rd f = ("invalid_sid", [])) ∧
    (∀ n t rd f, 1 ≤ n → n ≤ 6 →
        cmd_nudge_joint (JVal.vint n) JVal.vnone t rd f =
          ("invalid_delta", []) ∧
        cmd_nudge_joint (JVal.vint n) JVal.vbad t rd f =
          ("invalid_delta", [])) ∧
    (∀ l t f, l.length ≠ 6 →
        cmd_set_joints (some l) t f = ("error:invalid_angles", [])) ∧
    (∀ t f, cmd_set_joints none t f = ("error:invalid_angles", [])) ∧
    (∀ command, py_strip command = "" →
        on_message command = [Ev.error "missing_command"]) ∧
    (∀ command, route_name (py_strip command) = none →
        ∀ h : Handler, Ev.dispatch h ∉ on_message command) := by
  refine ⟨?_, ?_, ?_, ?_, ?_, ?_, ?_, ?_, ?_⟩
  · intro angle t f; exact ⟨rfl, rfl⟩
  · intro n angle t f h
    simp only [cmd_set_joint, toInt]
    rw [if_pos h]
  · intro n t f h1 h2
    simp only [cmd_set_joint, toInt]
    rw [if_neg (by omega)]
  · intro delta t rd f; exact ⟨rfl, rfl⟩
  · intro n t rd f h1 h2
    constructor <;>
      · simp only [cmd_nudge_joint, toInt]
        rw [if_neg (by omega)]
  · intro l t f h
    simp [cmd_set_joints, set_joints, h]
  · intro t f; rfl
  · intro command h
    simp [on_message, h]
  · intro command hr h hmem
    by_cases he : py_strip command = ""
    · simp [on_message, he] at hmem
    · simp [on_message, he, hr] at hmem

theorem c8_validation_errors_no_device_access_witness :
    cmd_set_joint (JVal.vint 7) (JVal.vint 90) 500 false =
      ("invalid_sid", []) ∧
    cmd_set_joint (JVal.vint 3) JVal.vnone 500 false =
      ("missing_angle", []) ∧
    (cmd_nudge_joint (JVal.vint 2) JVal.vbad 300 (ReadResult.value 90) false =
      ("invalid_delta", [])) ∧
    cmd_set_joints (some [JVal.vint 1, JVal.vint 2, JVal.vint 3]) 500 false =
      ("error:invalid_angles", []) ∧
    on_message "   " = [Ev.error "missing_command"] ∧
    Ev.dispatch Handler.hug ∉ on_message "HUG" :=
  ⟨c8_validation_errors_no_device_access.2.1 7 (JVal.vint 90) 500 false
      (by decide),
   c8_validation_errors_no_device_access.2.2.1 3 500 false
      (by decide) (by decide),
   (c8_validation_errors_no_device_access.2.2.2.2.1 2 300
      (ReadResult.value 90) false (by decide) (by decide)).2,
   c8_validation_errors_no_device_access.2.2.2.2.2.1
      [JVal.vint 1, JVal.vint 2, JVal.vint 3] 500 false (by decide),
   c8_validation_errors_no_device_access.2.2.2.2.2.2.2.1 "   " (by decide),
   c8_validation_errors_no_device_access.2.2.2.2.2.2.2.2 "HUG"
      (by decide) Handler.hug⟩

theorem c6_telemetry_emission_witness :
    should_send true [some 90, some 150, some 20, some 20, some 90, some 30]
        [some 90, some 150, some 20, some 20, some 90, some 30] false =
      false ∧
    should_send true [some 90, some 150, some 20, some 20, some 90, some 30]
        [some 90, some 150, some 20, some 20, some 90, some 30] true =
      true := by
  have h := c6_telemetry_emission true false
    [some 90, some 150, some 20, some 20, some 90, some 30]
    [some 90, some 150, some 20, some 20, some 90, some 30]
    (by decide) (by decide)
  exact ⟨h.1, h.2.1⟩

end Carebot
